import Mathlib

/-!
Verification of the Beta-Bernoulli SVI tutorial notebooks.

The notebooks define a Pyro model/guide pair for coin fairness, run an SVI
loop for a fixed number of steps, and read out the posterior mean and
standard deviation of the fitted Beta distribution in closed form.  The
posterior-summary arithmetic, the model and the guide bodies, and the
training loop structure are embedded here directly from the notebook code;
components that live inside the inference framework (the ELBO estimator,
the parameter store, the positivity constraint transform, the latent-name
validation) are modelled from the specification, as noted on each
definition.
-/

namespace PyroTutorial

/-! ## Posterior summary (from the notebook source)

The notebooks compute, from the learned guide parameters:
  inferred_mean = alpha_q / (alpha_q + beta_q)
  factor        = beta_q / (alpha_q * (1.0 + alpha_q + beta_q))
  inferred_std  = inferred_mean * math.sqrt(factor)
-/

/-- The inferred posterior mean, as computed in the notebooks:
`alpha_q / (alpha_q + beta_q)`. -/
noncomputable def inferred_mean (alpha_q beta_q : ℝ) : ℝ :=
  alpha_q / (alpha_q + beta_q)

/-- The intermediate factor from the notebooks:
`beta_q / (alpha_q * (1.0 + alpha_q + beta_q))`. -/
noncomputable def factor (alpha_q beta_q : ℝ) : ℝ :=
  beta_q / (alpha_q * (1.0 + alpha_q + beta_q))

/-- The inferred posterior standard deviation, as computed in the notebooks:
`inferred_mean * math.sqrt(factor)`. -/
noncomputable def inferred_std (alpha_q beta_q : ℝ) : ℝ :=
  inferred_mean alpha_q beta_q * Real.sqrt (factor alpha_q beta_q)

/-- The closed-form Beta standard deviation stated by the spec:
`sqrt(alpha_q * beta_q / ((alpha_q + beta_q)^2 * (alpha_q + beta_q + 1)))`.
This follows the spec text, to be compared with the notebook factorization. -/
noncomputable def specBetaStd (alpha_q beta_q : ℝ) : ℝ :=
  Real.sqrt (alpha_q * beta_q / ((alpha_q + beta_q) ^ 2 * (alpha_q + beta_q + 1)))

/-- The posterior summary: the pair (mean, std) as the notebooks report it. -/
noncomputable def summarize (alpha_q beta_q : ℝ) : ℝ × ℝ :=
  (inferred_mean alpha_q beta_q, inferred_std alpha_q beta_q)

/-! ## The training loop (from the notebook source)

Both notebooks run
  losses = []
  for step in range(n_steps):
      losses += [svi.step(data)]
with no early stopping.  `svi.step` is a framework call; it is kept
abstract here as a state-transition function returning the new state and
the scalar loss of that step.
-/

/-- One SVI optimizer state, modelled from the spec: the pseudo-random
generator state together with the unconstrained versions of the two guide
parameters (the framework optimizes `log alpha_q` and `log beta_q`). -/
structure SviState where
  rng : ℕ
  u_alpha : ℝ
  u_beta : ℝ

/-- The training loop from the notebooks: iterate `step` exactly `n` times,
threading the state and appending each step's scalar loss to the trace,
exactly as `losses += [svi.step(data)]` does. -/
def sviRun {S : Type} (step : S → S × ℝ) : ℕ → S → List ℝ → S × List ℝ
  | 0, s, losses => (s, losses)
  | n + 1, s, losses =>
    let p := step s
    sviRun step n p.1 (losses ++ [p.2])

/-- Modelled from the spec: the initial SVI state for a fixed seed, with
both guide parameters initialized to fixed positive constants (stored
unconstrained, as their logarithms).  The framework's seeding and
initialization code is not under src. -/
noncomputable def initState (seed : ℕ) (alpha_init beta_init : ℝ) : SviState :=
  ⟨seed, Real.log alpha_init, Real.log beta_init⟩

/-! ## The guide (from the notebook source)

def guide(data):
    alpha_q = pyro.param("alpha_q", torch.tensor(10.),
                         constraint=constraints.positive)
    beta_q = pyro.param("beta_q", torch.tensor(10.),
                        constraint=constraints.positive)
    pyro.sample("nu", dist.Beta(alpha_q, beta_q))

The body never mentions `data`.
-/

/-- A Beta distribution's parameter pair, as declared at a sample site. -/
structure BetaParams where
  alpha : ℝ
  beta : ℝ

/-- The guide from the notebooks: reads the two registered parameters,
declares the latent site over Beta(alpha_q, beta_q), and draws one sample
from it via the supplied random source.  Its `data` argument appears in
the signature (matching the model) but is never used in the body. -/
def guide (alpha_q beta_q : ℝ) (draw : BetaParams → ℝ) (data : List ℝ) :
    BetaParams × ℝ :=
  let d : BetaParams := ⟨alpha_q, beta_q⟩
  (d, draw d)

/-! ## Log-densities and the ELBO estimator

The distributions' `log_prob` and the `Trace_ELBO` loss live inside the
framework (pyro.distributions, pyro.infer), not under src; they are
modelled from the spec.
-/

/-- Modelled from the spec: the log of the Beta-function normalizer
`B(a, b) = Gamma(a) Gamma(b) / Gamma(a + b)`; `dist.Beta.log_prob` is not
under src. -/
noncomputable def logBetaFn (a b : ℝ) : ℝ :=
  Real.log (Real.Gamma a * Real.Gamma b / Real.Gamma (a + b))

/-- Modelled from the spec: the Beta log-density
`(a-1) log x + (b-1) log (1-x) - log B(a, b)`; `dist.Beta.log_prob` is not
under src. -/
noncomputable def beta_log_prob (a b x : ℝ) : ℝ :=
  (a - 1) * Real.log x + (b - 1) * Real.log (1 - x) - logBetaFn a b

/-- Modelled from the spec: the Bernoulli log-mass
`x log p + (1-x) log (1-p)`; `dist.Bernoulli.log_prob` is not under src. -/
noncomputable def bernoulli_log_prob (p x : ℝ) : ℝ :=
  x * Real.log p + (1 - x) * Real.log (1 - p)

/-- The execution trace shared between guide and model: the value recorded
at the single latent site "nu". -/
structure SviTrace where
  nu : ℝ

/-- Modelled from the spec: running the guide records the value it sampled
at site "nu" into the trace (`pyro.sample("nu", dist.Beta(alpha_q, beta_q))`
under a trace handler). -/
def guideDraw (nu : ℝ) : SviTrace := ⟨nu⟩

/-- The guide's log-density at its recorded trace: log q(nu) under
Beta(alpha_q, beta_q), from the guide's sample statement. -/
noncomputable def guide_log_q (alpha_q beta_q : ℝ) (t : SviTrace) : ℝ :=
  beta_log_prob alpha_q beta_q t.nu

/-- The model's log joint density replayed against a trace: the prior term
for site "nu" plus one Bernoulli term per observed data element, with the
success probability taken from the trace — embedding the notebook model
  f = pyro.sample("nu", dist.Beta(alpha0, beta0))
  with pyro.plate('data', len(data)):
      pyro.sample('obs', dist.Bernoulli(f), obs=data)
replayed under the trace discipline. -/
noncomputable def model_log_p (alpha0 beta0 : ℝ) (data : List ℝ) (t : SviTrace) : ℝ :=
  beta_log_prob alpha0 beta0 t.nu
    + (data.map (fun d => bernoulli_log_prob t.nu d)).sum

/-- Modelled from the spec: the single-sample Trace_ELBO loss.  One value
`nu` is drawn in the guide, recorded in the trace, and the model is
replayed against that same trace; the loss is the negated difference of
the model and guide log-densities.  `pyro.infer.Trace_ELBO` is not under
src. -/
noncomputable def elbo_loss (alpha0 beta0 alpha_q beta_q : ℝ)
    (data : List ℝ) (nu : ℝ) : ℝ :=
  -(model_log_p alpha0 beta0 data (guideDraw nu)
      - guide_log_q alpha_q beta_q (guideDraw nu))

/-! ## The positivity constraint (framework side, modelled from the spec) -/

/-- Modelled from the spec: `constraints.positive` makes the optimizer work
on an unconstrained parameter related to the constrained one by a log, so
the constrained value is the exponential of the unconstrained one.  The
transform code is not under src. -/
noncomputable def constrain_positive (u : ℝ) : ℝ := Real.exp u

/-- The unconstrained parameter pair the optimizer actually updates. -/
structure UnconstrainedParams where
  u_alpha : ℝ
  u_beta : ℝ

/-- The constrained alpha_q read back from the unconstrained state. -/
noncomputable def alpha_q_of (p : UnconstrainedParams) : ℝ :=
  constrain_positive p.u_alpha

/-- The constrained beta_q read back from the unconstrained state. -/
noncomputable def beta_q_of (p : UnconstrainedParams) : ℝ :=
  constrain_positive p.u_beta

/-- Modelled from the spec: initializing the parameters at positive values
stores their logarithms as the unconstrained state. -/
noncomputable def init_unconstrained (alpha_init beta_init : ℝ) : UnconstrainedParams :=
  ⟨Real.log alpha_init, Real.log beta_init⟩

/-- Iterating `n` optimizer updates on the unconstrained state; each update
is arbitrary, since any gradient step moves the unconstrained values. -/
def iterUpdates (upd : ℕ → UnconstrainedParams → UnconstrainedParams) :
    ℕ → UnconstrainedParams → UnconstrainedParams
  | 0, p => p
  | n + 1, p => upd n (iterUpdates upd n p)

/-! ## Latent-name validation (modelled from the spec) -/

/-- The error kinds named by the spec. -/
inductive SviError where
  | NameMismatch
  | InvalidParameter
  | NumericalInstability

/-- The unobserved latent site names declared by the notebook model: the
single site "nu" (the "obs" site is observed). -/
def modelLatentNames : List String := ["nu"]

/-- Boolean test that two name lists contain the same set of names. -/
def sameNameSet (xs ys : List String) : Bool :=
  xs.all (fun n => ys.contains n) && ys.all (fun n => xs.contains n)

/-- Modelled from the spec: static validation that the guide declares
exactly the model's unobserved latent names, raising NameMismatch
otherwise; this check is not under src. -/
def validate_names (guideNames : List String) : Except SviError Unit :=
  if sameNameSet modelLatentNames guideNames then Except.ok ()
  else Except.error SviError.NameMismatch

/-- Modelled from the spec: the checked training entry point — validate the
guide's latent names first, and only when they match run the training
loop. -/
def run_svi_checked (guideNames : List String) (step : SviState → SviState × ℝ)
    (n_steps : ℕ) (s : SviState) : Except SviError (SviState × List ℝ) :=
  match validate_names guideNames with
  | Except.error e => Except.error e
  | Except.ok _ => Except.ok (sviRun step n_steps s [])

/-! ## The parameter store (modelled from the spec)

`pyro.param(name, init, ...)` registers `name` in the process-wide store
if absent; the notebooks clear the store once before training.
-/

/-- Modelled from the spec: registering a named parameter in the store
creates it only if it is absent (pyro.param's semantics; the store itself
is not under src). -/
def register_param (store : List String) (name : String) : List String :=
  if name ∈ store then store else store ++ [name]

/-- The parameter registrations performed by one execution of the guide:
exactly "alpha_q" then "beta_q", from the two pyro.param calls in the
notebook guide. -/
def guide_registers (store : List String) : List String :=
  register_param (register_param store "alpha_q") "beta_q"

/-- The parameter registrations performed by one execution of the model:
none — the notebook model contains no pyro.param call. -/
def model_registers (store : List String) : List String := store

/-- The effect of one svi.step on the parameter store: the guide runs, then
the model is replayed. -/
def svi_step_params (store : List String) : List String :=
  model_registers (guide_registers store)

/-- The parameter store after `n` training steps starting from a given
store (the notebooks start from a cleared store). -/
def run_param_store : ℕ → List String → List String
  | 0, store => store
  | n + 1, store => run_param_store n (svi_step_params store)

/-! ## Theorems for the posterior summary claims -/

/-- C1: for strictly positive alpha_q and beta_q, the posterior summary is the
pair (alpha_q/(alpha_q+beta_q), sqrt(alpha_q*beta_q/((alpha_q+beta_q)^2*(alpha_q+beta_q+1)))):
the notebook's factorization `inferred_mean * sqrt(beta_q/(alpha_q*(1+alpha_q+beta_q)))`
equals the closed-form Beta standard deviation, and the computation is a pure
function of its two inputs. -/
theorem summarize_closed_form (alpha_q beta_q : ℝ)
    (ha : 0 < alpha_q) (hb : 0 < beta_q) :
    summarize alpha_q beta_q =
      (alpha_q / (alpha_q + beta_q), specBetaStd alpha_q beta_q) := by
  have hab : 0 < alpha_q + beta_q := by linarith
  have h1 : (0:ℝ) < 1.0 + alpha_q + beta_q := by norm_num; linarith
  unfold summarize inferred_std inferred_mean factor specBetaStd
  refine Prod.ext rfl ?_
  show alpha_q / (alpha_q + beta_q) *
      Real.sqrt (beta_q / (alpha_q * (1.0 + alpha_q + beta_q))) = _
  have hmean : 0 ≤ alpha_q / (alpha_q + beta_q) := by positivity
  rw [← Real.sqrt_sq hmean, ← Real.sqrt_mul (by positivity)]
  congr 1
  field_simp
  ring

/-- Witness for C1 at the concrete input (12, 8). -/
theorem summarize_closed_form_witness :
    summarize 12 8 = (12 / (12 + 8), specBetaStd 12 8) :=
  summarize_closed_form 12 8 (by norm_num) (by norm_num)

/-- Helper bounds on the standard deviation at (12, 8): the exact value is
0.6 * sqrt(8 / 252) = 0.10690..., pinned between 0.1064 and 0.1074. -/
theorem inferred_std_12_8_bounds :
    0.1064 < inferred_std 12 8 ∧ inferred_std 12 8 < 0.1074 := by
  unfold inferred_std inferred_mean factor
  have hm : (12:ℝ) / (12 + 8) = 0.6 := by norm_num
  have hf : (8:ℝ) / (12 * (1.0 + 12 + 8)) = 8 / 252 := by norm_num
  rw [hm, hf]
  constructor
  · have hlo : (0.1774:ℝ) < Real.sqrt (8 / 252) := by
      rw [show (0.1774:ℝ) < Real.sqrt (8 / 252) ↔ (0.1774:ℝ)^2 < 8 / 252 from
        Real.lt_sqrt (by norm_num)]
      norm_num
    nlinarith
  · have hhi : Real.sqrt ((8:ℝ) / 252) < 0.179 := by
      rw [Real.sqrt_lt' (by norm_num)]
      norm_num
    nlinarith

/-- C2 counterexample: at alpha_q = 12, beta_q = 8 the notebook's standard
deviation is 0.10690..., which differs from the spec's claimed 0.1109 by
almost 0.004 — beyond any reading of "approximately 0.1109". -/
theorem summarize_12_8_std_not_0_1109 :
    ¬ |inferred_std 12 8 - 0.1109| ≤ 0.003 := by
  have h := inferred_std_12_8_bounds
  intro hcontra
  rw [abs_le] at hcontra
  have := hcontra.1
  linarith [h.2]

/-- C2 (amended): at alpha_q = 12, beta_q = 8 the posterior summary returns
mean = 0.6 exactly and std within 0.0005 of 0.1069. -/
theorem summarize_12_8_values :
    inferred_mean 12 8 = 0.6 ∧ |inferred_std 12 8 - 0.1069| < 0.0005 := by
  have h := inferred_std_12_8_bounds
  constructor
  · unfold inferred_mean; norm_num
  · rw [abs_lt]
    constructor <;> linarith [h.1, h.2]

/-- C9: for strictly positive alpha_q and beta_q, the reported mean lies
strictly inside (0, 1) and the reported standard deviation is strictly
positive. -/
theorem summary_in_unit_interval (alpha_q beta_q : ℝ)
    (ha : 0 < alpha_q) (hb : 0 < beta_q) :
    0 < inferred_mean alpha_q beta_q ∧ inferred_mean alpha_q beta_q < 1 ∧
      0 < inferred_std alpha_q beta_q := by
  have hab : 0 < alpha_q + beta_q := by linarith
  refine ⟨by unfold inferred_mean; positivity, ?_, ?_⟩
  · unfold inferred_mean
    rw [div_lt_one hab]
    linarith
  · unfold inferred_std
    have hmean : 0 < inferred_mean alpha_q beta_q := by
      unfold inferred_mean; positivity
    have hfac : 0 < factor alpha_q beta_q := by
      unfold factor
      have : (0:ℝ) < 1.0 + alpha_q + beta_q := by norm_num; linarith
      positivity
    have := Real.sqrt_pos.mpr hfac
    positivity

/-- Witness for C9 at the concrete input (12, 8). -/
theorem summary_in_unit_interval_witness :
    0 < inferred_mean 12 8 ∧ inferred_mean 12 8 < 1 ∧ 0 < inferred_std 12 8 :=
  summary_in_unit_interval 12 8 (by norm_num) (by norm_num)

/-! ## Theorems for the training loop claims -/

/-- Helper: the loss trace accumulated by the loop grows by exactly one
entry per iteration. -/
theorem sviRun_losses_length {S : Type} (step : S → S × ℝ) (n : ℕ) :
    ∀ (s : S) (losses : List ℝ),
      ((sviRun step n s losses).2).length = losses.length + n := by
  induction n with
  | zero => intro s losses; simp [sviRun]
  | succ n ih =>
    intro s losses
    show ((sviRun step n (step s).1 (losses ++ [(step s).2])).2).length = _
    rw [ih]
    simp
    omega

/-- C4: the optimizer loop performs exactly n_steps iterations with no early
stopping, appending one scalar loss per iteration, so the returned loss
trace has length exactly n_steps. -/
theorem loss_trace_length {S : Type} (step : S → S × ℝ) (n_steps : ℕ) (s : S) :
    ((sviRun step n_steps s []).2).length = n_steps := by
  simpa using sviRun_losses_length step n_steps s []

/-- C6: for a fixed seed and fixed initial parameters, two independent runs
of the training loop — each starting from its own state initialized from
that seed — produce identical final states and identical loss traces: the
whole run is a deterministic function of the seed and the inputs. -/
theorem run_deterministic (step : SviState → SviState × ℝ) (seed : ℕ)
    (alpha_init beta_init : ℝ) (n_steps : ℕ) (s₁ s₂ : SviState)
    (h₁ : s₁ = initState seed alpha_init beta_init)
    (h₂ : s₂ = initState seed alpha_init beta_init) :
    sviRun step n_steps s₁ [] = sviRun step n_steps s₂ [] := by
  rw [h₁, h₂]

/-- Witness for C6 with a concrete step function, seed 0, one step. -/
theorem run_deterministic_witness :
    sviRun (fun s => (s, 0)) 1 (initState 0 10 10) [] =
      sviRun (fun s => (s, 0)) 1 (initState 0 10 10) [] :=
  run_deterministic (fun s => (s, 0)) 0 10 10 1 _ _ rfl rfl

/-! ## Theorems for the guide claims -/

/-- C7: the guide's behaviour is independent of its data argument: for any
two data vectors, with the same parameters and the same random source, the
guide declares the same Beta(alpha_q, beta_q) latent distribution and
produces the same sample. -/
theorem guide_ignores_data (alpha_q beta_q : ℝ) (draw : BetaParams → ℝ)
    (data1 data2 : List ℝ) :
    guide alpha_q beta_q draw data1 = guide alpha_q beta_q draw data2 ∧
      (guide alpha_q beta_q draw data1).1 = ⟨alpha_q, beta_q⟩ :=
  ⟨rfl, rfl⟩

/-! ## Theorems for the ELBO claim -/

/-- C3: one evaluation of the ELBO loss with a single draw nu from the
guide's Beta(alpha_q, beta_q) returns the negation of
log Beta(nu; alpha0, beta0) + sum over data of log Bernoulli(d; nu)
minus log Beta(nu; alpha_q, beta_q), with the model's terms evaluated at
the very same nu recorded by the guide's draw. -/
theorem elbo_loss_formula (alpha0 beta0 alpha_q beta_q : ℝ)
    (data : List ℝ) (nu : ℝ) (ha : 0 < alpha_q) (hb : 0 < beta_q) :
    elbo_loss alpha0 beta0 alpha_q beta_q data nu =
        -(beta_log_prob alpha0 beta0 nu
            + (data.map (fun d => bernoulli_log_prob nu d)).sum
            - beta_log_prob alpha_q beta_q nu) ∧
      (guideDraw nu).nu = nu :=
  ⟨rfl, rfl⟩

/-- Witness for C3 at concrete hyperparameters, data [1, 0] and nu = 1/2. -/
theorem elbo_loss_formula_witness :
    elbo_loss 10 10 10 10 [1, 0] (1/2) =
        -(beta_log_prob 10 10 (1/2)
            + (([1, 0] : List ℝ).map (fun d => bernoulli_log_prob (1/2) d)).sum
            - beta_log_prob 10 10 (1/2)) ∧
      (guideDraw (1/2)).nu = 1/2 :=
  elbo_loss_formula 10 10 10 10 [1, 0] (1/2) (by norm_num) (by norm_num)

/-! ## Theorems for the positivity invariant claim -/

/-- C5: starting from positive initial values, the constrained guide
parameters alpha_q and beta_q remain strictly positive after every
optimizer step, whatever updates the optimizer applies to the
unconstrained state — the positivity constraint transform maintains the
invariant. -/
theorem params_stay_positive (upd : ℕ → UnconstrainedParams → UnconstrainedParams)
    (alpha_init beta_init : ℝ) (ha : 0 < alpha_init) (hb : 0 < beta_init)
    (n : ℕ) :
    0 < alpha_q_of (iterUpdates upd n (init_unconstrained alpha_init beta_init)) ∧
      0 < beta_q_of (iterUpdates upd n (init_unconstrained alpha_init beta_init)) :=
  ⟨Real.exp_pos _, Real.exp_pos _⟩

/-- Witness for C5 with identity updates, initial values 10, 3 steps. -/
theorem params_stay_positive_witness :
    0 < alpha_q_of (iterUpdates (fun _ p => p) 3 (init_unconstrained 10 10)) ∧
      0 < beta_q_of (iterUpdates (fun _ p => p) 3 (init_unconstrained 10 10)) :=
  params_stay_positive (fun _ p => p) 10 10 (by norm_num) (by norm_num) 3

/-! ## Theorems for the latent-name validation claim -/

/-- C8: a guide whose declared latent-name set omits the "nu" site fails
the static name comparison: the checked training entry point returns the
NameMismatch error and never reaches the training loop, whatever the step
function, step count and initial state. -/
theorem missing_site_raises_name_mismatch (guideNames : List String)
    (step : SviState → SviState × ℝ) (n_steps : ℕ) (s : SviState)
    (h : "nu" ∉ guideNames) :
    run_svi_checked guideNames step n_steps s =
      Except.error SviError.NameMismatch := by
  have hc : guideNames.contains "nu" = false := by
    simpa using h
  have hfalse : sameNameSet modelLatentNames guideNames = false := by
    simp only [sameNameSet, modelLatentNames, List.all_cons, List.all_nil,
      Bool.and_true]
    rw [hc, Bool.false_and]
  simp [run_svi_checked, validate_names, hfalse]

/-- Witness for C8: the empty guide-name list (a guide omitting "nu"). -/
theorem missing_site_raises_name_mismatch_witness :
    run_svi_checked [] (fun s => (s, 0)) 5 ⟨0, 0, 0⟩ =
      Except.error SviError.NameMismatch :=
  missing_site_raises_name_mismatch [] (fun s => (s, 0)) 5 ⟨0, 0, 0⟩ (by simp)

/-! ## Theorems for the parameter-store claim -/

/-- Helper: the store holding exactly alpha_q and beta_q is a fixed point
of the training step, for any number of further steps. -/
theorem run_param_store_fixed (n : ℕ) :
    run_param_store n ["alpha_q", "beta_q"] = ["alpha_q", "beta_q"] := by
  induction n with
  | zero => rfl
  | succ n ih =>
    show run_param_store n (svi_step_params ["alpha_q", "beta_q"]) = _
    have hstep : svi_step_params ["alpha_q", "beta_q"] = ["alpha_q", "beta_q"] := by
      decide
    rw [hstep]
    exact ih

/-- C10: starting from the cleared store, after every training step the
parameter store holds exactly the names alpha_q and beta_q: the guide
registers only these two, the model registers none, and no step creates or
removes a parameter. -/
theorem param_store_exactly_two (n : ℕ) (h : 1 ≤ n) :
    run_param_store n [] = ["alpha_q", "beta_q"] := by
  obtain ⟨m, rfl⟩ : ∃ m, n = m + 1 := ⟨n - 1, by omega⟩
  show run_param_store m (svi_step_params []) = _
  have h0 : svi_step_params [] = ["alpha_q", "beta_q"] := by decide
  rw [h0]
  exact run_param_store_fixed m

/-- Witness for C10 after three training steps. -/
theorem param_store_exactly_two_witness :
    run_param_store 3 [] = ["alpha_q", "beta_q"] :=
  param_store_exactly_two 3 (by norm_num)

end PyroTutorial
